import Mathlib

/-!
Shallow embedding of the core of the `megaman` repository:
`megaman/geometry/geometry.py` (the `Geometry` cache/pipeline class) and
`megaman/utils/eigendecomp.py` (`check_eigen_solver`, `eigen_decomposition`,
`null_space`).

Modelling conventions
* Python kwargs dictionaries are association lists `List (String × Int)`
  with python `dict.update` semantics (`dictUpdate`): existing keys are
  overwritten in place, new keys appended.
* The three external collaborators (`compute_adjacency_matrix`,
  `compute_affinity_matrix`, `compute_laplacian_matrix` of the adjacency /
  affinity / laplacian modules, which are outside the two source files) are
  passed in as pure functions, exactly as the spec's "external pure functions"
  boundary contract describes.  Matrices are an abstract type `μ`.
* `raise ValueError(msg)` is modelled as `Except.error msg`.
* Python object identity for the returned matrix is modelled by the
  `fromCache` flag: the source returns either `self.<field>` itself
  (`fromCache = true`) or `self.<field>.copy()` (an equal-valued,
  structurally independent duplicate, `fromCache = false`).
* Numeric eigenvalues are rationals `ℚ`; the numeric eigensolvers
  (scipy `eigh`/`eig`/`eigsh`/`eigs`/`lobpcg`) are external collaborators,
  so the embedding keeps the source's post-processing (sorting, reversing,
  truncating, shifting) exact, applied to an abstract raw solver output.
-/

namespace Megaman

/-- Python dict represented as an association list of kwargs. -/
abbrev Params := List (String × Int)

/-- `d[k] = v` on a python dict: overwrite the entry in place if the key is
present, otherwise append it. -/
def dictSet (d : Params) (k : String) (v : Int) : Params :=
  if d.any (fun kv => kv.1 = k) then
    d.map (fun kv => if kv.1 = k then (k, v) else kv)
  else
    d ++ [(k, v)]

/-- Python `d.update(upd)`: later entries overwrite earlier ones. -/
def dictUpdate (d upd : Params) : Params :=
  upd.foldl (fun acc kv => dictSet acc kv.1 kv.2) d

/-- Python `d.get(k)`. -/
def dictGet (d : Params) (k : String) : Option Int :=
  (d.find? (fun kv => kv.1 = k)).map (fun kv => kv.2)

/-- geometry.py line 41: the message of the missing-data `ValueError`. -/
def distance_error_msg : String :=
  "No data matrix exists. Adjacency matrix cannot be computed."

/-- A matrix as returned to the caller: its value, and whether the returned
object is the live cached matrix (`self.<field>`, `fromCache = true`) or a
structurally independent copy (`self.<field>.copy()`, `fromCache = false`). -/
structure MatRet (μ : Type) where
  val : μ
  fromCache : Bool
  deriving DecidableEq

/-- The state of a `Geometry` object (geometry.py lines 80-95): the six
constructor parameters and the six cache fields, all caches starting at
`None`.  `δ` is the type of the data matrix `X`, `μ` the type of derived
matrices (the weights vector is also represented by `μ`). -/
structure Geometry (δ μ : Type) where
  adjacency_method : String
  adjacency_kwds : Option Params
  affinity_method : String
  affinity_kwds : Option Params
  laplacian_method : String
  laplacian_kwds : Option Params
  X : Option δ
  adjacency_matrix : Option μ
  affinity_matrix : Option μ
  laplacian_matrix : Option μ
  laplacian_symmetric : Option μ
  laplacian_weights : Option μ
  deriving DecidableEq

/-- What `Geometry.compute_laplacian_matrix` hands back to its caller.
`single` is a lone laplacian matrix together with the `fromCache` flag of
`MatRet`; `triple` is the three-tuple (laplacian, symmetric laplacian,
renormalization weights) that the spec says is returned when
`return_lapsym=True`. -/
inductive LapRet (μ : Type) where
  | single : μ → Bool → LapRet μ
  | triple : μ → μ → μ → LapRet μ
  deriving DecidableEq

/-- Whether a `compute_laplacian_matrix` return value is the three-tuple. -/
def LapRet.isTriple {μ : Type} : LapRet μ → Bool
  | .single _ _ => false
  | .triple _ _ _ => true

variable {δ μ : Type}

/-- geometry.py lines 97-125, `Geometry.compute_adjacency_matrix`:
raise the missing-data error when `self.X is None`; otherwise build a fresh
local dict from `self.adjacency_kwds or {}`, update it with the call's
kwargs (the merged dict is NOT written back to `self.adjacency_kwds`),
delegate to the adjacency collaborator `adjF`, store the result in
`self.adjacency_matrix`, and return the cache or a copy of it. -/
def Geometry.compute_adjacency_matrix (adjF : δ → String → Params → μ)
    (g : Geometry δ μ) (copy : Bool) (kwargs : Params) :
    Except String (Geometry δ μ × MatRet μ) :=
  match g.X with
  | none => Except.error distance_error_msg
  | some x =>
    let adjacency_kwds := dictUpdate (g.adjacency_kwds.getD []) kwargs
    let m := adjF x g.adjacency_method adjacency_kwds
    let g1 : Geometry δ μ := { g with adjacency_matrix := some m }
    Except.ok (g1, if copy then ⟨m, false⟩ else ⟨m, true⟩)

/-- geometry.py lines 146-147: `compute_affinity_matrix` first ensures an
adjacency matrix exists, running `self.compute_adjacency_matrix()` with its
default arguments when the cache is empty.  Returns the updated store
together with the adjacency matrix the affinity collaborator will see. -/
def Geometry.adjacency_step (adjF : δ → String → Params → μ)
    (g : Geometry δ μ) : Except String (Geometry δ μ × μ) :=
  match g.adjacency_matrix with
  | some adj => Except.ok (g, adj)
  | none => (g.compute_adjacency_matrix adjF false []).map
      (fun p => (p.1, p.2.val))

/-- geometry.py lines 127-157, `Geometry.compute_affinity_matrix`:
if `self.adjacency_matrix is None` first run
`self.compute_adjacency_matrix()` (default arguments), then merge the call's
kwargs over `self.affinity_kwds or {}` into a local dict, delegate to the
affinity collaborator `affF` on `self.adjacency_matrix`, store the result,
and return the cache or a copy of it. -/
def Geometry.compute_affinity_matrix (adjF : δ → String → Params → μ)
    (affF : μ → String → Params → μ) (g : Geometry δ μ) (copy : Bool)
    (kwargs : Params) : Except String (Geometry δ μ × MatRet μ) :=
  (g.adjacency_step adjF).bind (fun gp =>
    let affinity_kwds := dictUpdate (gp.1.affinity_kwds.getD []) kwargs
    let m := affF gp.2 gp.1.affinity_method affinity_kwds
    Except.ok (({ gp.1 with affinity_matrix := some m } : Geometry δ μ),
               if copy then ⟨m, false⟩ else ⟨m, true⟩))

/-- geometry.py lines 182-183: `compute_laplacian_matrix` first ensures an
affinity matrix exists, running `self.compute_affinity_matrix()` with its
default arguments when the cache is empty. -/
def Geometry.affinity_step (adjF : δ → String → Params → μ)
    (affF : μ → String → Params → μ) (g : Geometry δ μ) :
    Except String (Geometry δ μ × μ) :=
  match g.affinity_matrix with
  | some aff => Except.ok (g, aff)
  | none => (g.compute_affinity_matrix adjF affF false []).map
      (fun p => (p.1, p.2.val))

/-- geometry.py lines 159-201, `Geometry.compute_laplacian_matrix`:
if `self.affinity_matrix is None` first run `self.compute_affinity_matrix()`
(the `affinity_step` above), then merge the kwargs over
`self.laplacian_kwds or {}`, set
`laplacian_kwds['full_output'] = return_lapsym` (modelled as the trailing
`Bool` argument of the laplacian collaborator `lapF`; the collaborator's
contract returns the triple (laplacian, symmetric form, weights) when
`full_output` is set, and only the first component otherwise, so when
`return_lapsym = false` only `.1` of `lapF`'s output is used).  With
`return_lapsym=True` the source unpacks the result into the three fields
`laplacian_matrix`, `laplacian_symmetric`, `laplacian_weights`; otherwise it
stores only `laplacian_matrix`.  In BOTH cases the source then returns only
`self.laplacian_matrix` (or its copy), never the three-tuple. -/
def Geometry.compute_laplacian_matrix (adjF : δ → String → Params → μ)
    (affF : μ → String → Params → μ)
    (lapF : μ → String → Params → Bool → μ × μ × μ)
    (g : Geometry δ μ) (copy return_lapsym : Bool) (kwargs : Params) :
    Except String (Geometry δ μ × LapRet μ) :=
  (g.affinity_step adjF affF).bind (fun gp =>
    let laplacian_kwds := dictUpdate (gp.1.laplacian_kwds.getD []) kwargs
    let result := lapF gp.2 gp.1.laplacian_method laplacian_kwds return_lapsym
    let g1 : Geometry δ μ :=
      if return_lapsym then
        { gp.1 with laplacian_matrix := some result.1,
                    laplacian_symmetric := some result.2.1,
                    laplacian_weights := some result.2.2 }
      else
        { gp.1 with laplacian_matrix := some result.1 }
    Except.ok (g1, if copy then LapRet.single result.1 false
                   else LapRet.single result.1 true))

/-- geometry.py lines 249-250. -/
def Geometry.delete_data_matrix (g : Geometry δ μ) : Geometry δ μ :=
  { g with X := none }

/-- geometry.py lines 252-253. -/
def Geometry.delete_adjacency_matrix (g : Geometry δ μ) : Geometry δ μ :=
  { g with adjacency_matrix := none }

/-- geometry.py lines 255-256. -/
def Geometry.delete_affinity_matrix (g : Geometry δ μ) : Geometry δ μ :=
  { g with affinity_matrix := none }

/-- geometry.py lines 258-259: `self.laplacian_matrix = None` and nothing
else. -/
def Geometry.delete_laplacian_matrix (g : Geometry δ μ) : Geometry δ μ :=
  { g with laplacian_matrix := none }

/-! ## eigendecomp.py -/

/-- eigendecomp.py line 16. -/
def EIGEN_SOLVERS : List String := ["auto", "dense", "arpack", "lobpcg", "amg"]

/-- eigendecomp.py lines 19-62, `check_eigen_solver`: reject names outside
`EIGEN_SOLVERS`; reject `'amg'` when pyamg is absent (`pyamg_loaded`, the
module-level `PYAMG_LOADED` flag, is a parameter here); when both `size` and
`nvec` are supplied, downgrade `'lobpcg'` to `'dense'` for
`size < 5 * nvec + 1` (the source also emits a warning, not modelled) and
resolve `'auto'` to `'amg'` / `'arpack'` / `'dense'` by problem size;
otherwise return the name unchanged. -/
def check_eigen_solver (pyamg_loaded : Bool) (eigen_solver : String)
    (size nvec : Option Nat) : Except String String :=
  if eigen_solver ∈ EIGEN_SOLVERS then
    if eigen_solver = "amg" ∧ pyamg_loaded = false then
      Except.error ("The eigen_solver was set to 'amg', but pyamg is not "
        ++ "available. Please either install pyamg or use another method.")
    else
      match size, nvec with
      | some s, some n =>
        if eigen_solver = "lobpcg" ∧ s < 5 * n + 1 then
          Except.ok "dense"
        else if eigen_solver = "auto" then
          if 200 < s ∧ n < 10 then
            if pyamg_loaded then Except.ok "amg" else Except.ok "arpack"
          else
            Except.ok "dense"
        else
          Except.ok eigen_solver
      | _, _ => Except.ok eigen_solver
  else
    Except.error ("Unrecognized eigen_solver: " ++ eigen_solver)

/-- Stable ascending sort of eigenvalues: `np.argsort(lambdas)` applied to
the values (eigendecomp.py lines 165, 180).  `np.argsort` is stable, as is
insertion sort, so the value lists agree including ties. -/
def sortAsc (l : List ℚ) : List ℚ :=
  List.insertionSort (fun a b => a ≤ b) l

/-- Stable sort by ascending absolute value: `np.argsort(np.abs(ev))`
applied to the values (eigendecomp.py lines 275, 293, 306). -/
def sortAbsAsc (l : List ℚ) : List ℚ :=
  List.insertionSort (fun a b => |a| ≤ |b|) l

/-- eigendecomp.py lines 135-152, the arpack branch of
`eigen_decomposition`, restricted to its action on the eigenvalue list:
the values coming back from `eigsh`/`eigs` are passed through unchanged
(`np.real` is the identity on real values); no sorting, reversing or
truncating is applied in this branch. -/
def arpack_branch_values (lambdas : List ℚ) : List ℚ := lambdas

/-- eigendecomp.py lines 153-173, the amg branch of `eigen_decomposition`,
restricted to its action on the eigenvalue list returned by `lobpcg`:
`sort_order = np.argsort(lambdas)`, reversed when `largest`, then truncated
to the first `n_components` entries.  The eigenvector columns are carried
through the same permutation and truncation. -/
def amg_branch_values (largest : Bool) (n_components : Nat)
    (lambdas : List ℚ) : List ℚ :=
  (if largest then (sortAsc lambdas).reverse else sortAsc lambdas).take
    n_components

/-- eigendecomp.py lines 174-188, the lobpcg branch of
`eigen_decomposition`, restricted to its action on the eigenvalue list
returned by `lobpcg`: same sort, optional reversal and truncation as the
amg branch. -/
def lobpcg_branch_values (largest : Bool) (n_components : Nat)
    (lambdas : List ℚ) : List ℚ :=
  (if largest then (sortAsc lambdas).reverse else sortAsc lambdas).take
    n_components

/-- eigendecomp.py lines 189-200, the dense branch of
`eigen_decomposition`, restricted to its action on the eigenvalue list
returned by the dense symmetric solver `eigh` (which returns eigenvalues in
ascending order, as the source comments at line 196): reversed when
`largest`, then truncated to the first `n_components` entries. -/
def dense_branch_values (largest : Bool) (n_components : Nat)
    (lambdas : List ℚ) : List ℚ :=
  (if largest then lambdas.reverse else lambdas).take n_components

/-- eigendecomp.py line 161: the number of columns of the lobpcg initial
block, `n_find = min(n_nodes, 5 + 2*n_components)`. -/
def n_find (n_nodes n_components : Nat) : Nat :=
  min n_nodes (5 + 2 * n_components)

/-- An `nrows × ncols` numeric block given by its entry function. -/
structure Block where
  nrows : Nat
  ncols : Nat
  entry : Nat → Nat → ℚ

/-- eigendecomp.py lines 161-163, the initial block of the amg branch:
`X = random_state.rand(n_nodes, n_find)` followed by
`X[:, 0] = G.diagonal().ravel()` — column 0 is overwritten with the matrix
diagonal `diag`, all other columns are the random draw `rand`. -/
def amg_initial_block (rand : Nat → Nat → ℚ) (diag : Nat → ℚ)
    (n_nodes n_components : Nat) : Block :=
  ⟨n_nodes, n_find n_nodes n_components,
   fun i j => if j = 0 then diag i else rand i j⟩

/-- eigendecomp.py lines 177-178, the initial block of the lobpcg branch:
`X = random_state.rand(n_nodes, n_find)` with no further modification. -/
def lobpcg_initial_block (rand : Nat → Nat → ℚ)
    (n_nodes n_components : Nat) : Block :=
  ⟨n_nodes, n_find n_nodes n_components, fun i j => rand i j⟩

/-- eigendecomp.py lines 283-309, the amg/lobpcg branch of `null_space`,
restricted to its action on the eigenvalue list.  `α` is an abstract square
matrix type with dimension `dim` and shifted addition
`idAdd c A = c * identity + A`; `solve A n` stands for the call
`eigen_decomposition(A, n, eigen_solver, drop_first=False, largest=False)`
collapsed to its eigenvalue list, `Except.error ()` standing for
`np.linalg.LinAlgError`.

First attempt: `M = sparse.identity(M.shape[0]) + M` (the name `M` is
REBOUND to the shifted matrix), `n_components = min(k + k_skip + 10,
M.shape[0])`, solve, subtract 1, sort by absolute value, and return the
slice `[k_skip : k+1]` of the values together with its sum (the source
returns the matching eigenvector columns and that sum).

On `LinAlgError`: `M = 2.0*sparse.identity(M.shape[0]) + M` — applied to
the REBOUND `M`, i.e. to `identity + M₀` — solve again and subtract 2. -/
def null_space_shift_branch {α : Type} (dim : α → Nat) (idAdd : ℚ → α → α)
    (solve : α → Nat → Except Unit (List ℚ)) (k k_skip : Nat) (M : α) :
    Except String (List ℚ × ℚ) :=
  let M1 := idAdd 1 M
  match solve M1 (min (k + k_skip + 10) (dim M1)) with
  | Except.ok ev =>
    let ev1 := sortAbsAsc (ev.map (fun x => x - 1))
    let sel := (ev1.take (k + 1)).drop k_skip
    Except.ok (sel, sel.sum)
  | Except.error _ =>
    let M2 := idAdd 2 M1
    match solve M2 (min (k + k_skip + 10) (dim M2)) with
    | Except.ok ev =>
      let ev2 := sortAbsAsc (ev.map (fun x => x - 2))
      let sel := (ev2.take (k + 1)).drop k_skip
      Except.ok (sel, sel.sum)
    | Except.error _ => Except.error "LinAlgError"

/-- The four solver names that have a branch in `null_space`
(eigendecomp.py lines 254, 271, 283). -/
def null_space_known_branch (s : String) : Bool :=
  s = "arpack" || s = "dense" || s = "amg" || s = "lobpcg"

/-- eigendecomp.py lines 249-251 and 310-311, the dispatch skeleton of
`null_space`: resolve the solver through `check_eigen_solver` with
`size = M.shape[0]` and `nvec = k + k_skip` (both always supplied), then
either enter one of the four branches or hit the trailing
`raise ValueError("Unrecognized eigen_solver ...")`. -/
def null_space_dispatch (pyamg_loaded : Bool) (eigen_solver : String)
    (size k k_skip : Nat) : Except String String :=
  (check_eigen_solver pyamg_loaded eigen_solver (some size)
      (some (k + k_skip))).bind
    (fun s =>
      if null_space_known_branch s then Except.ok s
      else Except.error ("Unrecognized eigen_solver " ++ s))

/-! ## Theorems -/

/-- Claim C8: `check_eigen_solver` with requested solver `'auto'` and both
`size` and `nvec` known resolves to `'amg'` exactly when `size > 200` and
`nvec < 10` and pyamg is available, to `'arpack'` when `size > 200` and
`nvec < 10` but pyamg is absent, and to `'dense'` otherwise. -/
theorem c8_auto_resolution (pyamg_loaded : Bool) (s n : Nat) :
    check_eigen_solver pyamg_loaded "auto" (some s) (some n) =
      Except.ok (if 200 < s ∧ n < 10 then
                   (if pyamg_loaded then "amg" else "arpack")
                 else "dense") := by
  simp [check_eigen_solver, EIGEN_SOLVERS]
  split_ifs <;> rfl

/-- Every solver name that `check_eigen_solver` lets through with both
`size` and `nvec` supplied resolves to one of the four branch names of
`null_space`. -/
lemma check_eigen_solver_ok_known (pyamg_loaded : Bool) (es : String)
    (s n : Nat) (r : String)
    (h : check_eigen_solver pyamg_loaded es (some s) (some n) =
      Except.ok r) : null_space_known_branch r = true := by
  unfold check_eigen_solver at h
  by_cases hmem : es ∈ EIGEN_SOLVERS
  · rw [if_pos hmem] at h
    simp only [EIGEN_SOLVERS, List.mem_cons, List.not_mem_nil,
      or_false] at hmem
    rcases hmem with rfl | rfl | rfl | rfl | rfl <;>
      simp_all [null_space_known_branch] <;>
      split_ifs at h <;> simp_all [null_space_known_branch]
  · rw [if_neg hmem] at h
    exact absurd h (by simp)

/-- Claim C10: the trailing unrecognized-solver `raise` of `null_space`
(eigendecomp.py lines 310-311) is unreachable: the dispatch skeleton of
`null_space`, which resolves the solver through `check_eigen_solver` with
size and vector count always supplied, behaves exactly like
`check_eigen_solver` itself — whenever the resolution succeeds, the
resolved name is one of `'arpack'`, `'dense'`, `'amg'`, `'lobpcg'` and a
branch is entered, so the trailing error is never produced. -/
theorem c10_trailing_raise_unreachable (pyamg_loaded : Bool)
    (eigen_solver : String) (size k k_skip : Nat) :
    null_space_dispatch pyamg_loaded eigen_solver size k k_skip =
      check_eigen_solver pyamg_loaded eigen_solver (some size)
        (some (k + k_skip)) := by
  unfold null_space_dispatch
  cases hc : check_eigen_solver pyamg_loaded eigen_solver (some size)
      (some (k + k_skip)) with
  | error e => rfl
  | ok r =>
    have hk := check_eigen_solver_ok_known pyamg_loaded eigen_solver size
      (k + k_skip) r hc
    simp [Except.bind, hk]

/-- Claim C9: `delete_laplacian_matrix` sets only the `laplacian_matrix`
field to `None`: after a `compute_laplacian_matrix` call with
`return_lapsym=True` has populated `laplacian_symmetric` and
`laplacian_weights`, those two stay cached and unchanged through the
delete, and every other field (dataset, adjacency, affinity, methods and
kwds) is unchanged as well. -/
theorem c9_delete_laplacian_frame (adjF : δ → String → Params → μ)
    (affF : μ → String → Params → μ)
    (lapF : μ → String → Params → Bool → μ × μ × μ)
    (g g1 : Geometry δ μ) (r : LapRet μ) (copy : Bool) (kwargs : Params)
    (h : g.compute_laplacian_matrix adjF affF lapF copy true kwargs =
      Except.ok (g1, r)) :
    g1.delete_laplacian_matrix.laplacian_matrix = none ∧
    g1.delete_laplacian_matrix.laplacian_symmetric = g1.laplacian_symmetric
      ∧
    g1.laplacian_symmetric ≠ none ∧
    g1.delete_laplacian_matrix.laplacian_weights = g1.laplacian_weights ∧
    g1.laplacian_weights ≠ none ∧
    g1.delete_laplacian_matrix.X = g1.X ∧
    g1.delete_laplacian_matrix.adjacency_matrix = g1.adjacency_matrix ∧
    g1.delete_laplacian_matrix.affinity_matrix = g1.affinity_matrix ∧
    g1.delete_laplacian_matrix.adjacency_method = g1.adjacency_method ∧
    g1.delete_laplacian_matrix.adjacency_kwds = g1.adjacency_kwds ∧
    g1.delete_laplacian_matrix.affinity_method = g1.affinity_method ∧
    g1.delete_laplacian_matrix.affinity_kwds = g1.affinity_kwds ∧
    g1.delete_laplacian_matrix.laplacian_method = g1.laplacian_method ∧
    g1.delete_laplacian_matrix.laplacian_kwds = g1.laplacian_kwds := by
  rcases hstep : g.affinity_step adjF affF with e | ⟨g0, aff⟩
  · rw [Geometry.compute_laplacian_matrix, hstep] at h
    exact absurd h (by simp [Except.bind])
  · rw [Geometry.compute_laplacian_matrix, hstep] at h
    simp only [Except.bind, if_true, Except.ok.injEq, Prod.mk.injEq] at h
    obtain ⟨hg, _⟩ := h
    subst hg
    refine ⟨rfl, rfl, by simp [Geometry.delete_laplacian_matrix], rfl,
      by simp [Geometry.delete_laplacian_matrix], rfl, rfl, rfl, rfl, rfl,
      rfl, rfl, rfl, rfl⟩

/-- A concrete adjacency collaborator for witnesses. -/
def adjF0 : Unit → String → Params → Int := fun _ _ _ => 5

/-- A concrete affinity collaborator for witnesses. -/
def affF0 : Int → String → Params → Int := fun a _ _ => a + 1

/-- A concrete laplacian collaborator for witnesses. -/
def lapF0 : Int → String → Params → Bool → Int × Int × Int :=
  fun a _ _ _ => (a + 2, a + 3, a + 4)

/-- A fresh concrete store holding only a dataset. -/
def g0 : Geometry Unit Int :=
  ⟨"auto", none, "auto", none, "auto", none, some (), none, none, none,
   none, none⟩

/-- The store `g0` after `compute_laplacian_matrix` with
`return_lapsym=True` derived adjacency 5, affinity 6, laplacian 8,
symmetric laplacian 9 and weights 10. -/
def gLap : Geometry Unit Int :=
  ⟨"auto", none, "auto", none, "auto", none, some (), some 5, some 6,
   some 8, some 9, some 10⟩

/-- Witness for C9 at a concrete store. -/
theorem c9_witness :
    gLap.delete_laplacian_matrix.laplacian_matrix = none ∧
    gLap.delete_laplacian_matrix.laplacian_symmetric = some 9 ∧
    gLap.delete_laplacian_matrix.laplacian_weights = some 10 ∧
    gLap.delete_laplacian_matrix.adjacency_matrix = some 5 ∧
    gLap.delete_laplacian_matrix.affinity_matrix = some 6 ∧
    gLap.delete_laplacian_matrix.X = some () := by
  have h := c9_delete_laplacian_frame adjF0 affF0 lapF0 g0 gLap
    (LapRet.single 8 false) true [] (by rfl)
  exact ⟨h.1, h.2.1.trans rfl, h.2.2.2.1.trans rfl,
    h.2.2.2.2.2.2.1.trans rfl, h.2.2.2.2.2.2.2.1.trans rfl,
    h.2.2.2.2.2.1.trans rfl⟩

/-- Characterization of `compute_adjacency_matrix` on a store with a
dataset: it merges the kwargs over the stored parameters for this call,
delegates to the collaborator, caches the result and returns it (a copy
exactly when `copy` is set). -/
lemma compute_adjacency_matrix_eq (adjF : δ → String → Params → μ)
    (g : Geometry δ μ) (x : δ) (h : g.X = some x) (copy : Bool)
    (kwargs : Params) :
    g.compute_adjacency_matrix adjF copy kwargs =
      Except.ok
        (({ g with adjacency_matrix := some (adjF x g.adjacency_method
            (dictUpdate (g.adjacency_kwds.getD []) kwargs)) } :
              Geometry δ μ),
         ⟨adjF x g.adjacency_method
            (dictUpdate (g.adjacency_kwds.getD []) kwargs), !copy⟩) := by
  unfold Geometry.compute_adjacency_matrix
  rw [h]
  cases copy <;> rfl

/-- `g0` after one `compute_adjacency_matrix` call. -/
def gAdj : Geometry Unit Int :=
  ⟨"auto", none, "auto", none, "auto", none, some (), some 5, none, none,
   none, none⟩

/-- An adjacency collaborator that reads the `radius` kwarg, defaulting
to 0. -/
def adjFr : Unit → String → Params → Int :=
  fun _ _ kwds => (dictGet kwds "radius").getD 0

/-- A store with stored adjacency parameters `{radius: 1}` and a dataset. -/
def gC1 : Geometry Unit Int :=
  ⟨"auto", some [("radius", 1)], "auto", none, "auto", none, some (), none,
   none, none, none, none⟩

/-- `gC1` after one `compute_adjacency_matrix` call with kwarg
`radius=2`. -/
def gC1a : Geometry Unit Int :=
  ⟨"auto", some [("radius", 1)], "auto", none, "auto", none, some (),
   some 2, none, none, none, none⟩

/-- A store with no dataset but an injected adjacency matrix. -/
def gInj : Geometry Unit Int :=
  ⟨"auto", none, "auto", none, "auto", none, none, some 9, none, none,
   none, none⟩

/-- Claim C4: with a dataset set and unchanged stored parameters, two
consecutive `compute_adjacency_matrix` calls with no new kwargs and
`copy=False` return the by-value-equal cached adjacency matrix, both times
the live cache itself (`fromCache = true`), and leave the same state; a
call with `copy=True` returns an equal-valued but structurally independent
duplicate (`fromCache = false`) while the cached matrix is unaffected. -/
theorem c4_idempotent_cached (adjF : δ → String → Params → μ)
    (g : Geometry δ μ) (x : δ) (h : g.X = some x) (g1 : Geometry δ μ)
    (r1 : MatRet μ)
    (h1 : g.compute_adjacency_matrix adjF false [] = Except.ok (g1, r1)) :
    r1.fromCache = true ∧
    g1.adjacency_matrix = some r1.val ∧
    g1.compute_adjacency_matrix adjF false [] = Except.ok (g1, r1) ∧
    g1.compute_adjacency_matrix adjF true [] =
      Except.ok (g1, ⟨r1.val, false⟩) := by
  rw [compute_adjacency_matrix_eq adjF g x h false []] at h1
  simp only [Except.ok.injEq, Prod.mk.injEq] at h1
  obtain ⟨hg, hr⟩ := h1
  subst hg
  subst hr
  refine ⟨rfl, rfl, ?_, ?_⟩
  · exact compute_adjacency_matrix_eq adjF _ x h false []
  · exact compute_adjacency_matrix_eq adjF _ x h true []

/-- Witness for C4: the two no-kwarg calls on a concrete store return the
cache both times and the `copy=True` call returns the independent
duplicate. -/
theorem c4_witness :
    g0.compute_adjacency_matrix adjF0 false [] =
      Except.ok (gAdj, ⟨5, true⟩) ∧
    gAdj.compute_adjacency_matrix adjF0 false [] =
      Except.ok (gAdj, ⟨5, true⟩) ∧
    gAdj.compute_adjacency_matrix adjF0 true [] =
      Except.ok (gAdj, ⟨5, false⟩) := by
  have h := c4_idempotent_cached adjF0 g0 () rfl gAdj ⟨5, true⟩ (by rfl)
  exact ⟨by rfl, h.2.2.1, h.2.2.2⟩

/-- Claim C1, counterexample.  The store `gC1` has stored adjacency
parameters `{radius: 1}`; `adjFr` is an adjacency collaborator that reads
the `radius` kwarg.  A first call with kwarg `radius=2` computes with the
merged value 2, but the stored `adjacency_kwds` is left at `{radius: 1}`,
and a second call with no kwargs computes with `radius=1`: the merged
parameters did NOT persist (the claim says the second call would use the
previously passed `radius=2`). -/
theorem c1_counterexample :
    ((gC1.compute_adjacency_matrix adjFr false [("radius", 2)]).map
        (fun p => (p.2.val, p.1.adjacency_kwds))) =
      Except.ok (2, some [("radius", 1)]) ∧
    ((gC1.compute_adjacency_matrix adjFr false [("radius", 2)]).bind
        (fun p => p.1.compute_adjacency_matrix adjFr false [])).map
        (fun p => p.2.val) = Except.ok 1 ∧
    decide ((1 : Int) = 2) = false := by
  exact ⟨by rfl, by rfl, by rfl⟩

/-- Claim C1 as amended: `compute_adjacency_matrix` merges the call's
kwargs over the stored adjacency parameters for the current call only; the
stored `adjacency_kwds` is never written back, so a later call with no
kwargs uses only the originally stored parameters. -/
theorem c1_amended (adjF : δ → String → Params → μ) (g : Geometry δ μ)
    (x : δ) (h : g.X = some x) (kwargs : Params) (g1 : Geometry δ μ)
    (r1 : MatRet μ)
    (h1 : g.compute_adjacency_matrix adjF false kwargs =
      Except.ok (g1, r1)) :
    r1.val = adjF x g.adjacency_method
        (dictUpdate (g.adjacency_kwds.getD []) kwargs) ∧
    g1.adjacency_kwds = g.adjacency_kwds ∧
    g1.compute_adjacency_matrix adjF false [] =
      Except.ok
        (({ g1 with adjacency_matrix := some (adjF x g.adjacency_method
              (g.adjacency_kwds.getD [])) } : Geometry δ μ),
         ⟨adjF x g.adjacency_method (g.adjacency_kwds.getD []), true⟩) := by
  rw [compute_adjacency_matrix_eq adjF g x h false kwargs] at h1
  simp only [Except.ok.injEq, Prod.mk.injEq] at h1
  obtain ⟨hg, hr⟩ := h1
  subst hg
  subst hr
  exact ⟨rfl, rfl, compute_adjacency_matrix_eq adjF _ x h false []⟩

/-- Witness for C1 (amended) at a concrete store. -/
theorem c1_witness :
    (2 : Int) = adjFr () "auto"
      (dictUpdate [("radius", 1)] [("radius", 2)]) ∧
    gC1a.adjacency_kwds = gC1.adjacency_kwds := by
  have h := c1_amended adjFr gC1 () rfl [("radius", 2)] gC1a ⟨2, true⟩
    (by rfl)
  exact ⟨h.1, h.2.1⟩

/-- Claim C5, counterexample: on a store with a previously injected
adjacency matrix but no dataset, `compute_adjacency_matrix` DOES raise the
missing-data error (the source tests only `self.X is None` and never looks
at `self.adjacency_matrix`), contradicting "raises exactly when no dataset
is set and no adjacency matrix was injected". -/
theorem c5_counterexample :
    gInj.adjacency_matrix = some 9 ∧
    gInj.X = none ∧
    gInj.compute_adjacency_matrix adjF0 false [] =
      Except.error distance_error_msg := by
  exact ⟨rfl, rfl, rfl⟩

/-- Claim C5 as amended: `compute_adjacency_matrix` raises the
missing-data error exactly when no dataset is set, regardless of any
injected adjacency matrix; it is `compute_affinity_matrix` that skips the
adjacency derivation when an adjacency matrix is present, so on a store
with an injected adjacency matrix (and no dataset) the affinity derivation
succeeds without a missing-data error. -/
theorem c5_amended (adjF : δ → String → Params → μ)
    (affF : μ → String → Params → μ) (g : Geometry δ μ) (copy : Bool)
    (kwargs : Params) :
    ((g.compute_adjacency_matrix adjF copy kwargs =
        Except.error distance_error_msg) ↔ g.X = none) ∧
    (∀ m, g.adjacency_matrix = some m →
      g.compute_affinity_matrix adjF affF copy kwargs =
        Except.ok
          (({ g with affinity_matrix := some (affF m g.affinity_method
              (dictUpdate (g.affinity_kwds.getD []) kwargs)) } :
                Geometry δ μ),
           ⟨affF m g.affinity_method
              (dictUpdate (g.affinity_kwds.getD []) kwargs), !copy⟩)) := by
  constructor
  · constructor
    · intro he
      cases hx : g.X with
      | none => rfl
      | some x =>
        rw [compute_adjacency_matrix_eq adjF g x hx] at he
        cases he
    · intro hx
      unfold Geometry.compute_adjacency_matrix
      rw [hx]
  · intro m hm
    have hstep : g.adjacency_step adjF = Except.ok (g, m) := by
      unfold Geometry.adjacency_step
      rw [hm]
    unfold Geometry.compute_affinity_matrix
    rw [hstep]
    cases copy <;> rfl

/-- `gInj` after `compute_affinity_matrix` derived affinity 10 from the
injected adjacency 9. -/
def gInjAff : Geometry Unit Int :=
  ⟨"auto", none, "auto", none, "auto", none, none, some 9, some 10, none,
   none, none⟩

/-- Witness for C5 (amended): the affinity derivation succeeds on the
injected-adjacency, no-dataset store `gInj`. -/
theorem c5_witness :
    gInj.compute_affinity_matrix adjF0 affF0 false [] =
      Except.ok (gInjAff, ⟨10, true⟩) := by
  have h := (c5_amended adjF0 affF0 gInj false []).2 9 rfl
  exact h

/-- A store with an injected affinity matrix only. -/
def gC2 : Geometry Unit Int :=
  ⟨"auto", none, "auto", none, "auto", none, none, none, some 7, none,
   none, none⟩

/-- `gC2` after `compute_laplacian_matrix` with `return_lapsym=True`
stored laplacian 9, symmetric laplacian 10 and weights 11. -/
def gC2Lap : Geometry Unit Int :=
  ⟨"auto", none, "auto", none, "auto", none, none, none, some 7, some 9,
   some 10, some 11⟩

/-- Claim C2, counterexample: a `compute_laplacian_matrix` call with
`return_lapsym=True` computes and stores all three components, but its
return value is NOT the three-tuple — the source returns only
`self.laplacian_matrix` (its copy here, since the `copy` default is
`True`), so the claimed three-tuple return does not happen. -/
theorem c2_counterexample :
    ((gC2.compute_laplacian_matrix adjF0 affF0 lapF0 true true []).map
        (fun p => p.2.isTriple)) = Except.ok false ∧
    ((gC2.compute_laplacian_matrix adjF0 affF0 lapF0 true true []).map
        (fun p => (p.1.laplacian_matrix, p.1.laplacian_symmetric,
          p.1.laplacian_weights))) =
      Except.ok (some 9, some 10, some 11) := by
  exact ⟨by rfl, by rfl⟩

/-- The laplacian collaborator's output on the merged parameters of a
`compute_laplacian_matrix` call: `lapF` applied to the affinity matrix, the
stored method, the stored kwds updated with the call's kwargs, and the
`full_output` flag. -/
def lapMerged (lapF : μ → String → Params → Bool → μ × μ × μ)
    (g : Geometry δ μ) (aff : μ) (kwargs : Params) (full_output : Bool) :
    μ × μ × μ :=
  lapF aff g.laplacian_method (dictUpdate (g.laplacian_kwds.getD []) kwargs)
    full_output

/-- Claim C2 as amended: with `return_lapsym` true,
`compute_laplacian_matrix` computes the three components, stores all three
in the fields `laplacian_matrix`, `laplacian_symmetric` and
`laplacian_weights`, and returns only the primary Laplacian (a copy when
`copy` is set); with `return_lapsym` false it stores and returns only the
primary Laplacian. -/
theorem c2_amended (adjF : δ → String → Params → μ)
    (affF : μ → String → Params → μ)
    (lapF : μ → String → Params → Bool → μ × μ × μ) (g : Geometry δ μ)
    (aff : μ) (h : g.affinity_matrix = some aff) (copy : Bool)
    (kwargs : Params) :
    g.compute_laplacian_matrix adjF affF lapF copy true kwargs =
      Except.ok
        (({ g with laplacian_matrix := some (lapMerged lapF g aff kwargs true).1,
                   laplacian_symmetric := some (lapMerged lapF g aff kwargs true).2.1,
                   laplacian_weights := some (lapMerged lapF g aff kwargs true).2.2 } :
            Geometry δ μ),
         LapRet.single (lapMerged lapF g aff kwargs true).1 (!copy)) ∧
    g.compute_laplacian_matrix adjF affF lapF copy false kwargs =
      Except.ok
        (({ g with laplacian_matrix := some (lapMerged lapF g aff kwargs false).1 } :
            Geometry δ μ),
         LapRet.single (lapMerged lapF g aff kwargs false).1 (!copy)) := by
  have hstep : g.affinity_step adjF affF = Except.ok (g, aff) := by
    unfold Geometry.affinity_step
    rw [h]
  constructor <;>
    (unfold Geometry.compute_laplacian_matrix
     rw [hstep]
     cases copy <;> rfl)

/-- Witness for C2 (amended) at a concrete store. -/
theorem c2_witness :
    gC2.compute_laplacian_matrix adjF0 affF0 lapF0 false true [] =
      Except.ok (gC2Lap, LapRet.single 9 true) := by
  have h := c2_amended adjF0 affF0 lapF0 gC2 7 rfl false []
  exact h.1

/-- 1×1 rational matrices `[[a]]`, represented by the entry `a`: the
dimension function for `null_space_shift_branch`. -/
def dim1 : ℚ → Nat := fun _ => 1

/-- On 1×1 matrices, `c * identity + [[a]] = [[c + a]]`. -/
def idAdd1 : ℚ → ℚ → ℚ := fun c a => c + a

/-- The spectrum of the 1×1 matrix `[[a]]` is exactly `[a]`. -/
def spec1 : ℚ → List ℚ := fun a => [a]

/-- A lobpcg-style eigensolver on 1×1 matrices: it returns the (correct)
spectrum, except that on the matrix `[[1]]` it fails with
`np.linalg.LinAlgError` — the numerical-failure premise of the retry
branch. -/
def solveC3 : ℚ → Nat → Except Unit (List ℚ) := fun a n =>
  if a = 1 then Except.error () else Except.ok ((spec1 a).take n)

/-- Claim C3 (code bug): on the 1×1 positive semi-definite matrix
`M = [[0]]` with `k = 0`, `k_skip = 0`, where the first lobpcg solve of
`I + M = [[1]]` fails, the retry solves `2I + (I + M) = [[3]]` — the
doubled shift is applied to the already-shifted matrix, not to the
original `M` — and subtracts only 2, returning the value 1 and error sum
1.  The spectrum of `M` is `[0]`, so the returned value is NOT an
eigenvalue of `M` (it is off by the residual shift 1), contrary to the
claim and to the function's documented purpose of finding eigenvalues
near 0. -/
theorem c3_retry_shift_bug :
    null_space_shift_branch dim1 idAdd1 solveC3 0 0 0 =
      Except.ok ([1], 1) ∧
    spec1 0 = [0] ∧
    decide ((1 : ℚ) ∈ spec1 0) = false := by
  refine ⟨?_, rfl, by rfl⟩
  norm_num [null_space_shift_branch, dim1, idAdd1, solveC3, spec1,
    sortAbsAsc]

/-- Modelled from the spec: the raw eigenvalue output of the external
scipy symmetric eigensolvers (not part of this repository) is in ascending
order — the source states this convention for `eigh` at eigendecomp.py
line 196, and scipy's `eigsh` follows the same convention, so for
`G = diag(1, 2)`, `k = 2`, `which='LM'` the raw arpack output is `[1, 2]`.
The arpack branch of `eigen_decomposition` feeds this output straight
through. -/
def eigsh_LM_diag_1_2 : List ℚ := [1, 2]

/-- Claim C6, counterexample: for the symmetric matrix `diag(1, 2)` with
`k = 2` and `largest = true`, the arpack branch returns the raw ascending
output `[1, 2]` unchanged — which is not in non-increasing order — while
the dense branch returns `[2, 1]`: the ordering is neither non-increasing
for arpack nor independent of the solver mode. -/
theorem c6_counterexample :
    arpack_branch_values eigsh_LM_diag_1_2 = [1, 2] ∧
    dense_branch_values true 2 eigsh_LM_diag_1_2 = [2, 1] ∧
    decide (List.Sorted (fun a b : ℚ => b ≤ a) [(1 : ℚ), 2]) = false ∧
    decide (([1, 2] : List ℚ) = [2, 1]) = false := by
  exact ⟨rfl, rfl, by rfl, by rfl⟩

/-- Claim C6 as amended: the dense branch (on the ascending `eigh` output)
and the amg and lobpcg branches (on any raw `lobpcg` output) return
eigenvalues in non-increasing order when `largest` is true and
non-decreasing order when `largest` is false; the arpack branch applies no
reordering at all and returns the underlying routine's raw output order
unchanged. -/
theorem c6_amended (k : Nat) (raw raw2 : List ℚ)
    (hraw : raw.Sorted (fun a b => a ≤ b)) :
    (dense_branch_values true k raw).Sorted (fun a b => b ≤ a) ∧
    (dense_branch_values false k raw).Sorted (fun a b => a ≤ b) ∧
    (amg_branch_values true k raw2).Sorted (fun a b => b ≤ a) ∧
    (amg_branch_values false k raw2).Sorted (fun a b => a ≤ b) ∧
    (lobpcg_branch_values true k raw2).Sorted (fun a b => b ≤ a) ∧
    (lobpcg_branch_values false k raw2).Sorted (fun a b => a ≤ b) ∧
    arpack_branch_values raw2 = raw2 := by
  have hsorted : (sortAsc raw2).Sorted (fun a b : ℚ => a ≤ b) :=
    List.sorted_insertionSort (fun a b : ℚ => a ≤ b) raw2
  have hrev : ∀ l : List ℚ, l.Sorted (fun a b : ℚ => a ≤ b) →
      l.reverse.Sorted (fun a b : ℚ => b ≤ a) := by
    intro l hl
    exact List.pairwise_reverse.2 hl
  have htake : ∀ (r : ℚ → ℚ → Prop) (l : List ℚ) (n : Nat),
      l.Pairwise r → (l.take n).Pairwise r := by
    intro r l n hl
    exact hl.sublist (List.take_sublist n l)
  refine ⟨htake _ _ _ (hrev raw hraw), htake _ _ _ hraw,
    htake _ _ _ (hrev _ hsorted), htake _ _ _ hsorted,
    htake _ _ _ (hrev _ hsorted), htake _ _ _ hsorted, rfl⟩

/-- Witness for C6 (amended) at a concrete raw output. -/
theorem c6_witness :
    List.Sorted (fun a b : ℚ => a ≤ b) [(1 : ℚ), 2] ∧
    (dense_branch_values true 2 [(1 : ℚ), 2]).Sorted
      (fun a b : ℚ => b ≤ a) ∧
    (amg_branch_values true 2 [(2 : ℚ), 1]).Sorted
      (fun a b : ℚ => b ≤ a) := by
  have h := c6_amended 2 [(1 : ℚ), 2] [(2 : ℚ), 1] (by decide)
  exact ⟨by decide, h.1, h.2.2.1⟩

/-- A concrete random draw for the initial blocks. -/
def randC7 : Nat → Nat → ℚ := fun _ _ => 7

/-- A concrete matrix diagonal for the initial blocks. -/
def diagC7 : Nat → ℚ := fun _ => 3

/-- Claim C7, counterexample: with random draw constantly 7 and matrix
diagonal constantly 3, the first column of the lobpcg initial block stays
at the random value 7 — the lobpcg branch never overwrites column 0 with
the matrix diagonal — while the amg initial block's first column is the
diagonal value 3, so the two branches do not use the same initial block. -/
theorem c7_counterexample :
    (lobpcg_initial_block randC7 3 1).entry 0 0 = 7 ∧
    (amg_initial_block randC7 diagC7 3 1).entry 0 0 = 3 ∧
    decide ((7 : ℚ) = 3) = false := by
  exact ⟨rfl, rfl, by rfl⟩

/-- Claim C7 as amended: the lobpcg branch is identical to the amg branch
minus the preconditioner and minus the diagonal seeding: both initial
blocks have the same shape `n_nodes × min(n_nodes, 5 + 2*k)` and identical
entries in every column except column 0, where amg substitutes the matrix
diagonal while lobpcg keeps the random draw; the sort and truncation
applied to the solver output are identical. -/
theorem c7_amended (rand : Nat → Nat → ℚ) (diag : Nat → ℚ)
    (n_nodes n_components i j : Nat) (hj : j ≠ 0) (largest : Bool)
    (m : Nat) (xs : List ℚ) :
    (lobpcg_initial_block rand n_nodes n_components).nrows =
      (amg_initial_block rand diag n_nodes n_components).nrows ∧
    (lobpcg_initial_block rand n_nodes n_components).ncols =
      min n_nodes (5 + 2 * n_components) ∧
    (amg_initial_block rand diag n_nodes n_components).ncols =
      min n_nodes (5 + 2 * n_components) ∧
    (lobpcg_initial_block rand n_nodes n_components).entry i j =
      (amg_initial_block rand diag n_nodes n_components).entry i j ∧
    (lobpcg_initial_block rand n_nodes n_components).entry i 0 =
      rand i 0 ∧
    (amg_initial_block rand diag n_nodes n_components).entry i 0 =
      diag i ∧
    lobpcg_branch_values largest m xs = amg_branch_values largest m xs := by
  refine ⟨rfl, rfl, rfl, ?_, rfl, rfl, rfl⟩
  simp [lobpcg_initial_block, amg_initial_block, hj]

/-- Witness for C7 (amended) at concrete inputs. -/
theorem c7_witness :
    (lobpcg_initial_block randC7 3 1).entry 0 1 =
      (amg_initial_block randC7 diagC7 3 1).entry 0 1 ∧
    lobpcg_branch_values true 2 [(1 : ℚ), 2] =
      amg_branch_values true 2 [(1 : ℚ), 2] := by
  have h := c7_amended randC7 diagC7 3 1 0 1 (by decide) true 2
    [(1 : ℚ), 2]
  exact ⟨h.2.2.2.1, h.2.2.2.2.2.2⟩

end Megaman
